import Mathlib

/-
Verification of aya's user-space hash-map view (src/aya/src/maps/hash_map.rs).

The embedding translates the Rust source into Lean. Machine integers are
modelled as Nat (u32/u64 fields, byte sizes) or Int (raw file descriptors,
syscall return codes, raw OS error numbers); no arithmetic overflows occur in
the modelled code, every integer is merely stored and compared. The kernel is
modelled as a Gateway record of the four raw syscall operations the spec's
Syscall Gateway exposes. Code of the repository that lives outside
maps/hash_map.rs (the sys wrappers and the MapKeys/MapIter iterators in
maps/mod.rs) is modelled from the spec, as marked in doc comments.
-/

namespace Aya

/-- Raw OS error number meaning "no such entry" (ENOENT on Linux). -/
def ENOENT : Int := 2

/-- Raw OS error number used by the tests as a generic fault (EFAULT on Linux). -/
def EFAULT : Int := 14

/-- Tag of the hash-map kind in the generated kernel bindings
(generated::bpf_map_type::BPF_MAP_TYPE_HASH). -/
def BPF_MAP_TYPE_HASH : Nat := 1

/-- bpf_map_def: the immutable definition record of a map descriptor. -/
structure bpf_map_def where
  map_type : Nat
  key_size : Nat
  value_size : Nat
  max_entries : Nat
  map_flags : Nat
deriving DecidableEq, Repr

/-- obj::Map: the object-file level map record; the field `defn` embeds the
Rust field named `def` (a Lean keyword). -/
structure ObjMap where
  name : String
  defn : bpf_map_def
  section_index : Nat
deriving DecidableEq, Repr

/-- Map: the untyped map descriptor: its object record plus the optional
kernel handle (RawFd). -/
structure Map where
  obj : ObjMap
  fd : Option Int
deriving DecidableEq, Repr

/-- MapError: the closed error taxonomy (maps/mod.rs declaration, used
throughout hash_map.rs); io_error is modelled by its raw OS error number. -/
inductive MapError where
  | InvalidMapType (map_type : Nat)
  | InvalidKeySize (size : Nat) (expected : Nat)
  | InvalidValueSize (size : Nat) (expected : Nat)
  | NotCreated
  | SyscallError (call : String) (code : Int) (io_error : Int)
deriving DecidableEq, Repr

/-- Modelled from the spec: Map::fd_or_err lives in maps/mod.rs, which is not
among the sources; per the spec (§4.1, §7) a descriptor with no live handle
fails with NotCreated, otherwise the handle is produced. The tests of
hash_map.rs (test_new_not_created) confirm this behaviour. -/
def Map.fd_or_err (m : Map) : Except MapError Int :=
  match m.fd with
  | some fd => Except.ok fd
  | none => Except.error MapError.NotCreated

/-- Syscall Gateway: the four raw kernel operations (spec §6). Each returns
either a success byte count (lookup and get-next-key additionally produce the
bytes written into the caller buffer, modelled as the typed result) or a raw
failure code paired with an OS error number. -/
structure Gateway (K V : Type) where
  lookup : Int → K → Nat → Except (Int × Int) V
  update : Int → K → V → Nat → Except (Int × Int) Int
  delete : Int → K → Except (Int × Int) Int
  next_key : Int → Option K → Except (Int × Int) K

/-- Modelled from the spec: sys::bpf_map_lookup_elem (sys/bpf.rs, not among
the sources) issues the lookup syscall; the specific "entry not found" OS
condition (ENOENT) is translated into the explicit-absent result Ok none
(spec §4.2); any other failure propagates as the raw (code, os_error) pair. -/
def bpf_map_lookup_elem (g : Gateway K V) (fd : Int) (key : K) (flags : Nat) :
    Except (Int × Int) (Option V) :=
  match g.lookup fd key flags with
  | Except.ok v => Except.ok (some v)
  | Except.error (code, e) =>
      if e = ENOENT then Except.ok none else Except.error (code, e)

/-- Modelled from the spec: sys::bpf_map_update_elem (sys/bpf.rs, not among
the sources) issues the update syscall and reports the raw result verbatim. -/
def bpf_map_update_elem (g : Gateway K V) (fd : Int) (key : K) (value : V)
    (flags : Nat) : Except (Int × Int) Int :=
  g.update fd key value flags

/-- Modelled from the spec: sys::bpf_map_delete_elem (sys/bpf.rs, not among
the sources) issues the delete syscall and reports the raw result verbatim;
no OS condition is special-cased (spec §4.4). -/
def bpf_map_delete_elem (g : Gateway K V) (fd : Int) (key : K) :
    Except (Int × Int) Int :=
  g.delete fd key

/-- HashMap<T, K, V>: the typed view; T (the ownership mode) always derefs to
the wrapped Map descriptor, which is what the embedding stores. -/
structure HashMap (K V : Type) where
  inner : Map
deriving DecidableEq, Repr

/-- HashMap::new (hash_map.rs lines 43-72): validate kind, then key size,
then value size, then handle presence, in that order; sizeK and sizeV stand
for mem::size_of::<K>() and mem::size_of::<V>(). -/
def HashMap.new (K V : Type) (map : Map) (sizeK sizeV : Nat) :
    Except MapError (HashMap K V) :=
  let map_type := map.obj.defn.map_type
  if map_type ≠ BPF_MAP_TYPE_HASH then
    Except.error (MapError.InvalidMapType map_type)
  else if sizeK ≠ map.obj.defn.key_size then
    Except.error (MapError.InvalidKeySize sizeK map.obj.defn.key_size)
  else if sizeV ≠ map.obj.defn.value_size then
    Except.error (MapError.InvalidValueSize sizeV map.obj.defn.value_size)
  else
    match Map.fd_or_err map with
    | Except.error e => Except.error e
    | Except.ok _ => Except.ok { inner := map }

/-- HashMap::get (hash_map.rs lines 75-82): resolve the handle, issue the
lookup, and wrap any raw failure as SyscallError with call
"bpf_map_lookup_elem". -/
def HashMap.get (g : Gateway K V) (hm : HashMap K V) (key : K) (flags : Nat) :
    Except MapError (Option V) :=
  match Map.fd_or_err hm.inner with
  | Except.error e => Except.error e
  | Except.ok fd =>
    match bpf_map_lookup_elem g fd key flags with
    | Except.ok v => Except.ok v
    | Except.error (code, io_error) =>
        Except.error (MapError.SyscallError "bpf_map_lookup_elem" code io_error)

/-- HashMap::insert (hash_map.rs lines 99-109): resolve the handle, issue the
update, wrap any raw failure as SyscallError with call "bpf_map_update_elem",
and discard the success count. -/
def HashMap.insert (g : Gateway K V) (hm : HashMap K V) (key : K) (value : V)
    (flags : Nat) : Except MapError Unit :=
  match Map.fd_or_err hm.inner with
  | Except.error e => Except.error e
  | Except.ok fd =>
    match bpf_map_update_elem g fd key value flags with
    | Except.ok _ => Except.ok ()
    | Except.error (code, io_error) =>
        Except.error (MapError.SyscallError "bpf_map_update_elem" code io_error)

/-- HashMap::remove (hash_map.rs lines 112-121): resolve the handle, issue
the delete, discard the success byte count, and wrap any raw failure as
SyscallError with call "bpf_map_delete_elem". -/
def HashMap.remove (g : Gateway K V) (hm : HashMap K V) (key : K) :
    Except MapError Unit :=
  match Map.fd_or_err hm.inner with
  | Except.error e => Except.error e
  | Except.ok fd =>
    match bpf_map_delete_elem g fd key with
    | Except.ok _ => Except.ok ()
    | Except.error (code, io_error) =>
        Except.error (MapError.SyscallError "bpf_map_delete_elem" code io_error)

/-- IterableMap::fd for HashMap (hash_map.rs lines 125-127). -/
def IterableMap.fd (hm : HashMap K V) : Except MapError Int :=
  Map.fd_or_err hm.inner

/-- IterableMap::get for HashMap (hash_map.rs lines 129-131): forwards to
HashMap::get with flags 0. -/
def IterableMap.get (g : Gateway K V) (hm : HashMap K V) (key : K) :
    Except MapError (Option V) :=
  HashMap.get g hm key 0

/-- Modelled from the spec: sys::bpf_map_get_next_key (sys/bpf.rs, not among
the sources) issues the get-next-key syscall; the specific "no more keys" OS
condition (ENOENT, the end-of-map signal of §4.5 step 2) becomes Ok none; any
other failure propagates as the raw (code, os_error) pair. -/
def bpf_map_get_next_key (g : Gateway K V) (fd : Int) (key : Option K) :
    Except (Int × Int) (Option K) :=
  match g.next_key fd key with
  | Except.ok k => Except.ok (some k)
  | Except.error (code, e) =>
      if e = ENOENT then Except.ok none else Except.error (code, e)

/-- MapKeys: the cursor state of the keys-only iterator (maps/mod.rs): the
last key returned (none at the start) and the post-error latch. -/
structure MapKeys (K : Type) where
  key : Option K
  err : Bool
deriving DecidableEq, Repr

/-- MapKeys::new: a fresh cursor, no key yet, no error. -/
def MapKeys.new (K : Type) : MapKeys K :=
  { key := none, err := false }

/-- Modelled from the spec: MapKeys::next (maps/mod.rs, not among the
sources; spec §4.5 steps 1-2). One advance of the keys-only sequence: nothing
after an earlier error (the iterator is never advanced post-error); the
handle is resolved through IterableMap::fd; get-next-key is invoked with the
previous key or none; end-of-map yields nothing; a key advances the cursor
and is yielded; any other failure latches the error flag and yields one
SyscallError whose call names the get-next-key syscall (the name
"bpf_map_get_next_key" is fixed by the tests of hash_map.rs). The pair is the
yielded element (none when the sequence is over) and the next state. -/
def MapKeys.next (g : Gateway K V) (hm : HashMap K V) (s : MapKeys K) :
    Option (Except MapError K) × MapKeys K :=
  if s.err then (none, s)
  else
    match IterableMap.fd hm with
    | Except.error e => (some (Except.error e), { s with err := true })
    | Except.ok fd =>
      match bpf_map_get_next_key g fd s.key with
      | Except.ok (some k) => (some (Except.ok k), { s with key := some k })
      | Except.ok none => (none, s)
      | Except.error (code, io_error) =>
          (some (Except.error
              (MapError.SyscallError "bpf_map_get_next_key" code io_error)),
           { s with err := true })

/-- Modelled from the spec: MapIter::next (maps/mod.rs, not among the
sources; spec §4.5 step 3). One advance of the key-value sequence: advance
the underlying key cursor; on a key, look its value up through
IterableMap::get; an absent value (deleted in flight) is silently skipped and
the cursor advances again; a lookup failure is yielded without stopping the
sequence; a key-cursor error or end is passed through. The skip loop is
bounded by a fuel argument so the function is total; every claim is settled
at a fuel large enough that the bound is never the reason a step stops. -/
def MapIter.next (g : Gateway K V) (hm : HashMap K V) :
    Nat → MapKeys K → Option (Except MapError (K × V)) × MapKeys K
  | 0, s => (none, s)
  | Nat.succ fuel, s =>
    match MapKeys.next g hm s with
    | (none, s1) => (none, s1)
    | (some (Except.error e), s1) => (some (Except.error e), s1)
    | (some (Except.ok k), s1) =>
      match IterableMap.get g hm k with
      | Except.ok none => MapIter.next g hm fuel s1
      | Except.ok (some v) => (some (Except.ok (k, v)), s1)
      | Except.error e => (some (Except.error e), s1)

/-- runKeys: collect the keys-only sequence from a state, stopping when the
iterator reports the end or when the fuel bound runs out. -/
def runKeys (g : Gateway K V) (hm : HashMap K V) :
    Nat → MapKeys K → List (Except MapError K)
  | 0, _ => []
  | Nat.succ fuel, s =>
    match MapKeys.next g hm s with
    | (none, _) => []
    | (some x, s1) => x :: runKeys g hm fuel s1

/-- runIter: collect the key-value sequence from a state; the first fuel
bounds the number of yielded elements, lookupFuel bounds each skip loop. -/
def runIter (g : Gateway K V) (hm : HashMap K V) :
    Nat → Nat → MapKeys K → List (Except MapError (K × V))
  | 0, _, _ => []
  | Nat.succ fuel, lookupFuel, s =>
    match MapIter.next g hm lookupFuel s with
    | (none, _) => []
    | (some x, s1) => x :: runIter g hm fuel lookupFuel s1

/-- TryFrom<MapRef>: the shared reference-counted ownership mode wrapping a
Map descriptor (maps/mod.rs declaration). -/
structure MapRef where
  map : Map
deriving DecidableEq, Repr

/-- TryFrom<MapRefMut>: the exclusive reference-counted ownership mode
wrapping a Map descriptor (maps/mod.rs declaration). -/
structure MapRefMut where
  map : Map
deriving DecidableEq, Repr

/-- TryFrom<MapRef> for HashMap (hash_map.rs lines 134-140): delegates to
HashMap::new on the dereffed descriptor. -/
def tryFromMapRef (K V : Type) (a : MapRef) (sizeK sizeV : Nat) :
    Except MapError (HashMap K V) :=
  HashMap.new K V a.map sizeK sizeV

/-- TryFrom<MapRefMut> for HashMap (hash_map.rs lines 142-148): delegates to
HashMap::new on the dereffed descriptor. -/
def tryFromMapRefMut (K V : Type) (a : MapRefMut) (sizeK sizeV : Nat) :
    Except MapError (HashMap K V) :=
  HashMap.new K V a.map sizeK sizeV

/-- TryFrom<&Map> for HashMap (hash_map.rs lines 150-156): delegates to
HashMap::new on the borrowed descriptor. -/
def tryFromRef (K V : Type) (a : Map) (sizeK sizeV : Nat) :
    Except MapError (HashMap K V) :=
  HashMap.new K V a sizeK sizeV

/-- TryFrom<&mut Map> for HashMap (hash_map.rs lines 158-164): delegates to
HashMap::new on the mutably borrowed descriptor. -/
def tryFromRefMut (K V : Type) (a : Map) (sizeK sizeV : Nat) :
    Except MapError (HashMap K V) :=
  HashMap.new K V a sizeK sizeV

/-- Construction-time kind and size validation errors: the checks of
HashMap::new apart from handle presence. -/
def MapError.isCheck : MapError → Bool
  | MapError.InvalidMapType _ => true
  | MapError.InvalidKeySize _ _ => true
  | MapError.InvalidValueSize _ _ => true
  | _ => false

/-- new_obj_map "TEST" from the test harness of hash_map.rs: a hash-map
definition with 4-byte keys and values. -/
def testObjMap : ObjMap :=
  { name := "TEST",
    defn := { map_type := BPF_MAP_TYPE_HASH, key_size := 4, value_size := 4,
              max_entries := 1024, map_flags := 0 },
    section_index := 0 }

/-- The created descriptor used by the tests: handle 42 present. -/
def testMap : Map :=
  { obj := testObjMap, fd := some 42 }

/-- A descriptor like testMap but with no handle yet. -/
def testMapNoFd : Map :=
  { obj := testObjMap, fd := none }

/-- The validated view over testMap (what HashMap::new returns on it). -/
def testHashMap : HashMap Nat Nat :=
  { inner := testMap }

/-- A view value whose descriptor has no handle, used to exhibit which
operations re-examine handle presence. -/
def hashMapNoFd : HashMap Nat Nat :=
  { inner := testMapNoFd }

/-- get_next_key from the test harness: the kernel-side key order is
10, 20, 30, then end-of-map; any other previous key faults. -/
def get_next_key_test : Option Nat → Except (Int × Int) Nat
  | none => Except.ok 10
  | some 10 => Except.ok 20
  | some 20 => Except.ok 30
  | some 30 => Except.error (-1, ENOENT)
  | some _ => Except.error (-1, EFAULT)

/-- lookup_elem from the test harness: 10, 20, 30 hold 100, 200, 300; any
other key is absent. -/
def lookup_elem_test : Nat → Except (Int × Int) Nat
  | 10 => Except.ok 100
  | 20 => Except.ok 200
  | 30 => Except.ok 300
  | _ => Except.error (-1, ENOENT)

/-- The gateway driving test_keys and test_iter. -/
def testGateway : Gateway Nat Nat :=
  { lookup := fun _ k _ => lookup_elem_test k,
    update := fun _ _ _ _ => Except.ok 1,
    delete := fun _ _ => Except.ok 1,
    next_key := fun _ p => get_next_key_test p }

/-- The gateway driving test_keys_empty: get-next-key signals end-of-map at
once. -/
def emptyGateway : Gateway Nat Nat :=
  { testGateway with next_key := fun _ _ => Except.error (-1, ENOENT) }

/-- The gateway driving test_keys_error: keys 10 and 20 are produced, then
the third get-next-key call faults with EFAULT. -/
def keysErrGateway : Gateway Nat Nat :=
  { testGateway with
    next_key := fun _ p =>
      match p with
      | none => Except.ok 10
      | some 10 => Except.ok 20
      | some _ => Except.error (-1, EFAULT) }

/-- The gateway driving test_iter_key_error: keys 10 and 20 are produced,
the third get-next-key call faults with EFAULT (the key 30 step, unreachable
in the run, signals end-of-map as in the harness), and lookups serve the
test values. -/
def iterKeyErrGateway : Gateway Nat Nat :=
  { testGateway with
    next_key := fun _ p =>
      match p with
      | none => Except.ok 10
      | some 10 => Except.ok 20
      | some 20 => Except.error (-1, EFAULT)
      | some 30 => Except.error (-1, ENOENT)
      | some _ => Except.error (-1, EFAULT) }

/-- The gateway driving test_iter_key_deleted: key order 10, 20, 30, but the
lookup of 20 reports the entry gone (ENOENT). -/
def delGateway : Gateway Nat Nat :=
  { testGateway with
    lookup := fun _ k _ =>
      match k with
      | 10 => Except.ok 100
      | 20 => Except.error (-1, ENOENT)
      | 30 => Except.ok 300
      | _ => Except.error (-1, ENOENT) }

/-- The gateway driving test_iter_value_error: key order 10, 20, 30, but the
lookup of 20 faults with EFAULT. -/
def valErrGateway : Gateway Nat Nat :=
  { testGateway with
    lookup := fun _ k _ =>
      match k with
      | 10 => Except.ok 100
      | 20 => Except.error (-1, EFAULT)
      | 30 => Except.ok 300
      | _ => Except.error (-1, ENOENT) }

/-- A descriptor whose kind is not the hash-map kind
(BPF_MAP_TYPE_PERF_EVENT_ARRAY is tag 4 in the generated bindings). -/
def perfEventMap : Map :=
  { obj := { testObjMap with
             defn := { testObjMap.defn with map_type := 4 } },
    fd := none }

/-- A gateway whose delete operation reports the entry missing (ENOENT), as
when removing an absent key. -/
def delErrGateway : Gateway Nat Nat :=
  { testGateway with delete := fun _ _ => Except.error (-1, ENOENT) }

/-- C5: view construction succeeds exactly when the descriptor's kind is the
hash-map kind, the key and value sizes match, and a handle is present; each
failing check produces its specific error carrying the actual (and, for
sizes, expected) data, and the checks run in the order kind, key size, value
size, handle, the first failure short-circuiting the rest. -/
theorem hashMap_new_characterization (K V : Type) (m : Map) (sizeK sizeV : Nat) :
    (HashMap.new K V m sizeK sizeV = Except.ok { inner := m } ↔
      (m.obj.defn.map_type = BPF_MAP_TYPE_HASH ∧ sizeK = m.obj.defn.key_size ∧
       sizeV = m.obj.defn.value_size ∧ m.fd.isSome = true))
    ∧ (m.obj.defn.map_type ≠ BPF_MAP_TYPE_HASH →
        HashMap.new K V m sizeK sizeV =
          Except.error (MapError.InvalidMapType m.obj.defn.map_type))
    ∧ (m.obj.defn.map_type = BPF_MAP_TYPE_HASH → sizeK ≠ m.obj.defn.key_size →
        HashMap.new K V m sizeK sizeV =
          Except.error (MapError.InvalidKeySize sizeK m.obj.defn.key_size))
    ∧ (m.obj.defn.map_type = BPF_MAP_TYPE_HASH → sizeK = m.obj.defn.key_size →
       sizeV ≠ m.obj.defn.value_size →
        HashMap.new K V m sizeK sizeV =
          Except.error (MapError.InvalidValueSize sizeV m.obj.defn.value_size))
    ∧ (m.obj.defn.map_type = BPF_MAP_TYPE_HASH → sizeK = m.obj.defn.key_size →
       sizeV = m.obj.defn.value_size → m.fd = none →
        HashMap.new K V m sizeK sizeV = Except.error MapError.NotCreated) := by
  obtain ⟨⟨nm, ⟨mt, ks, vs, me, fl⟩, si⟩, fd⟩ := m
  by_cases h1 : mt = BPF_MAP_TYPE_HASH <;>
    by_cases h2 : sizeK = ks <;>
      by_cases h3 : sizeV = vs <;>
        rcases fd with _ | fd <;>
          simp [HashMap.new, Map.fd_or_err, h1, h2, h3]

/-- C5 (witness): the characterization applied at the fixtures of the test
harness: the valid created descriptor constructs, the perf-event descriptor
fails with InvalidMapType 4, a 1-byte key on a 4-byte map fails with
InvalidKeySize, a 2-byte value fails with InvalidValueSize, and the
uncreated valid descriptor fails with NotCreated. -/
theorem hashMap_new_characterization_witness :
    HashMap.new Nat Nat testMap 4 4 = Except.ok testHashMap
    ∧ HashMap.new Nat Nat perfEventMap 4 4 =
        Except.error (MapError.InvalidMapType 4)
    ∧ HashMap.new Nat Nat testMap 1 4 =
        Except.error (MapError.InvalidKeySize 1 4)
    ∧ HashMap.new Nat Nat testMap 4 2 =
        Except.error (MapError.InvalidValueSize 2 4)
    ∧ HashMap.new Nat Nat testMapNoFd 4 4 = Except.error MapError.NotCreated := by
  refine ⟨?_, ?_, ?_, ?_, ?_⟩
  · exact (hashMap_new_characterization Nat Nat testMap 4 4).1.mpr
      ⟨rfl, rfl, rfl, rfl⟩
  · exact (hashMap_new_characterization Nat Nat perfEventMap 4 4).2.1 (by decide)
  · exact (hashMap_new_characterization Nat Nat testMap 1 4).2.2.1 rfl (by decide)
  · exact (hashMap_new_characterization Nat Nat testMap 4 2).2.2.2.1 rfl rfl
      (by decide)
  · exact (hashMap_new_characterization Nat Nat testMapNoFd 4 4).2.2.2.2 rfl rfl
      rfl rfl

/-- C6: on a view whose descriptor holds a handle, get translates a lookup
failure whose OS error is the "entry not found" condition into the
explicit-absent result Ok none; any other lookup failure becomes a
SyscallError naming the lookup syscall with the raw code and OS error; a
found value is returned as Ok some; and the three outcomes are pairwise
distinct. -/
theorem hashMap_get_spec (K V : Type) (g : Gateway K V) (hm : HashMap K V)
    (k : K) (flags : Nat) (fd : Int) (hfd : hm.inner.fd = some fd) :
    (∀ code, g.lookup fd k flags = Except.error (code, ENOENT) →
       HashMap.get g hm k flags = Except.ok none)
    ∧ (∀ code e, e ≠ ENOENT → g.lookup fd k flags = Except.error (code, e) →
       HashMap.get g hm k flags =
         Except.error (MapError.SyscallError "bpf_map_lookup_elem" code e))
    ∧ (∀ v, g.lookup fd k flags = Except.ok v →
       HashMap.get g hm k flags = Except.ok (some v))
    ∧ (∀ (v : V) (code e : Int),
       (Except.ok none : Except MapError (Option V)) ≠
           Except.error (MapError.SyscallError "bpf_map_lookup_elem" code e)
       ∧ (Except.ok none : Except MapError (Option V)) ≠ Except.ok (some v)
       ∧ (Except.ok (some v) : Except MapError (Option V)) ≠
           Except.error (MapError.SyscallError "bpf_map_lookup_elem" code e)) := by
  refine ⟨?_, ?_, ?_, ?_⟩
  · intro code h
    simp [HashMap.get, bpf_map_lookup_elem, Map.fd_or_err, hfd, h]
  · intro code e hne h
    simp [HashMap.get, bpf_map_lookup_elem, Map.fd_or_err, hfd, h, hne]
  · intro v h
    simp [HashMap.get, bpf_map_lookup_elem, Map.fd_or_err, hfd, h]
  · intro v code e
    refine ⟨?_, ?_, ?_⟩ <;> intro h <;> simp at h

/-- C6 (witness): on the deleted-key gateway the lookup of 20 reports ENOENT
and get returns Ok none; on the faulting gateway the lookup of 20 fails with
EFAULT and get returns the SyscallError for the lookup syscall. -/
theorem hashMap_get_spec_witness :
    HashMap.get delGateway testHashMap 20 0 = Except.ok none
    ∧ HashMap.get valErrGateway testHashMap 20 0 =
        Except.error (MapError.SyscallError "bpf_map_lookup_elem" (-1) EFAULT) := by
  constructor
  · exact (hashMap_get_spec Nat Nat delGateway testHashMap 20 0 42 rfl).1 (-1) rfl
  · exact (hashMap_get_spec Nat Nat valErrGateway testHashMap 20 0 42 rfl).2.1
      (-1) EFAULT (by decide) rfl

/-- C7: on a view whose descriptor holds a handle, remove wraps every delete
failure (the "entry not found" OS condition included, with no special-casing
to the absent result) as a SyscallError naming the delete syscall with the
raw code and OS error, and on delete success it returns unit, discarding the
byte count whatever it was. -/
theorem hashMap_remove_spec (K V : Type) (g : Gateway K V) (hm : HashMap K V)
    (k : K) (fd : Int) (hfd : hm.inner.fd = some fd) :
    (∀ code e, g.delete fd k = Except.error (code, e) →
       HashMap.remove g hm k =
         Except.error (MapError.SyscallError "bpf_map_delete_elem" code e))
    ∧ (∀ n, g.delete fd k = Except.ok n → HashMap.remove g hm k = Except.ok ()) := by
  constructor
  · intro code e h
    simp [HashMap.remove, bpf_map_delete_elem, Map.fd_or_err, hfd, h]
  · intro n h
    simp [HashMap.remove, bpf_map_delete_elem, Map.fd_or_err, hfd, h]

/-- C7 (witness): removing through a gateway whose delete reports ENOENT
(an absent key) yields the SyscallError for the delete syscall, not an
absent result, while a successful delete (byte count 1) yields unit. -/
theorem hashMap_remove_spec_witness :
    HashMap.remove delErrGateway testHashMap 5 =
      Except.error (MapError.SyscallError "bpf_map_delete_elem" (-1) ENOENT)
    ∧ HashMap.remove testGateway testHashMap 5 = Except.ok () := by
  constructor
  · exact (hashMap_remove_spec Nat Nat delErrGateway testHashMap 5 42 rfl).1
      (-1) ENOENT rfl
  · exact (hashMap_remove_spec Nat Nat testGateway testHashMap 5 42 rfl).2 1 rfl

/-- C9: the four ownership-mode conversion paths (shared reference-counted
handle, exclusive reference-counted handle, immutable borrow, mutable
borrow) all delegate to HashMap::new on the same descriptor, so they produce
the same validation outcome. -/
theorem tryFrom_modes_agree (K V : Type) (m : Map) (sizeK sizeV : Nat) :
    tryFromMapRef K V { map := m } sizeK sizeV = HashMap.new K V m sizeK sizeV
    ∧ tryFromMapRefMut K V { map := m } sizeK sizeV = HashMap.new K V m sizeK sizeV
    ∧ tryFromRef K V m sizeK sizeV = HashMap.new K V m sizeK sizeV
    ∧ tryFromRefMut K V m sizeK sizeV = HashMap.new K V m sizeK sizeV :=
  ⟨rfl, rfl, rfl, rfl⟩

/-- C8 (counterexample): the operations do re-examine handle presence at
call time: on a view value whose descriptor holds no handle, get, insert,
remove and the iterator's fd resolution all fail with NotCreated before any
syscall is issued, even though the very same gateway serves the lookup of
that key successfully on the created view; the handle check is therefore
re-performed on every call, not only at construction. -/
theorem ops_recheck_handle :
    HashMap.get testGateway hashMapNoFd 10 0 = Except.error MapError.NotCreated
    ∧ HashMap.insert testGateway hashMapNoFd 10 100 0 =
        Except.error MapError.NotCreated
    ∧ HashMap.remove testGateway hashMapNoFd 10 = Except.error MapError.NotCreated
    ∧ IterableMap.fd hashMapNoFd = Except.error MapError.NotCreated
    ∧ HashMap.get testGateway testHashMap 10 0 = Except.ok (some 100)
    ∧ testGateway.lookup 42 10 0 = Except.ok 100 :=
  ⟨rfl, rfl, rfl, rfl, rfl, rfl⟩

/-- C8 (amended): the kind and size checks of construction are never
re-performed: no get, insert or remove outcome is ever an InvalidMapType,
InvalidKeySize or InvalidValueSize error; handle presence, however, is
re-resolved by every operation through fd_or_err, which fails with
NotCreated exactly when the view's descriptor holds no handle at call
time. -/
theorem ops_no_type_revalidation (K V : Type) (g : Gateway K V)
    (hm : HashMap K V) (k : K) (v : V) (flags : Nat) :
    (∀ e, HashMap.get g hm k flags = Except.error e → e.isCheck = false)
    ∧ (∀ e, HashMap.insert g hm k v flags = Except.error e → e.isCheck = false)
    ∧ (∀ e, HashMap.remove g hm k = Except.error e → e.isCheck = false)
    ∧ (HashMap.get g hm k flags = Except.error MapError.NotCreated ↔
        hm.inner.fd = none)
    ∧ (HashMap.insert g hm k v flags = Except.error MapError.NotCreated ↔
        hm.inner.fd = none)
    ∧ (HashMap.remove g hm k = Except.error MapError.NotCreated ↔
        hm.inner.fd = none)
    ∧ (IterableMap.fd hm = Except.error MapError.NotCreated ↔
        hm.inner.fd = none) := by
  refine ⟨?_, ?_, ?_, ?_, ?_, ?_, ?_⟩
  · intro e h
    rcases hfd : hm.inner.fd with _ | fd
    · simp [HashMap.get, Map.fd_or_err, hfd] at h
      simp [h.symm, MapError.isCheck]
    · rcases hg : g.lookup fd k flags with ⟨code, e1⟩ | v1
      · by_cases he : e1 = ENOENT
        · simp [HashMap.get, bpf_map_lookup_elem, Map.fd_or_err, hfd, hg, he]
            at h
        · simp [HashMap.get, bpf_map_lookup_elem, Map.fd_or_err, hfd, hg, he]
            at h
          simp [h.symm, MapError.isCheck]
      · simp [HashMap.get, bpf_map_lookup_elem, Map.fd_or_err, hfd, hg] at h
  · intro e h
    rcases hfd : hm.inner.fd with _ | fd
    · simp [HashMap.insert, Map.fd_or_err, hfd] at h
      simp [h.symm, MapError.isCheck]
    · rcases hg : g.update fd k v flags with ⟨code, e1⟩ | n
      · simp [HashMap.insert, bpf_map_update_elem, Map.fd_or_err, hfd, hg]
          at h
        simp [h.symm, MapError.isCheck]
      · simp [HashMap.insert, bpf_map_update_elem, Map.fd_or_err, hfd, hg]
          at h
  · intro e h
    rcases hfd : hm.inner.fd with _ | fd
    · simp [HashMap.remove, Map.fd_or_err, hfd] at h
      simp [h.symm, MapError.isCheck]
    · rcases hg : g.delete fd k with ⟨code, e1⟩ | n
      · simp [HashMap.remove, bpf_map_delete_elem, Map.fd_or_err, hfd, hg] at h
        simp [h.symm, MapError.isCheck]
      · simp [HashMap.remove, bpf_map_delete_elem, Map.fd_or_err, hfd, hg] at h
  · constructor
    · intro h
      rcases hfd : hm.inner.fd with _ | fd
      · rfl
      · exfalso
        rcases hg : g.lookup fd k flags with ⟨code, e1⟩ | v1
        · by_cases he : e1 = ENOENT
          · simp [HashMap.get, bpf_map_lookup_elem, Map.fd_or_err, hfd, hg,
              he] at h
          · simp [HashMap.get, bpf_map_lookup_elem, Map.fd_or_err, hfd, hg,
              he] at h
        · simp [HashMap.get, bpf_map_lookup_elem, Map.fd_or_err, hfd, hg] at h
    · intro h
      simp [HashMap.get, Map.fd_or_err, h]
  · constructor
    · intro h
      rcases hfd : hm.inner.fd with _ | fd
      · rfl
      · exfalso
        rcases hg : g.update fd k v flags with ⟨code, e1⟩ | n
        · simp [HashMap.insert, bpf_map_update_elem, Map.fd_or_err, hfd, hg]
            at h
        · simp [HashMap.insert, bpf_map_update_elem, Map.fd_or_err, hfd, hg]
            at h
    · intro h
      simp [HashMap.insert, Map.fd_or_err, h]
  · constructor
    · intro h
      rcases hfd : hm.inner.fd with _ | fd
      · rfl
      · exfalso
        rcases hg : g.delete fd k with ⟨code, e1⟩ | n
        · simp [HashMap.remove, bpf_map_delete_elem, Map.fd_or_err, hfd, hg]
            at h
        · simp [HashMap.remove, bpf_map_delete_elem, Map.fd_or_err, hfd, hg]
            at h
    · intro h
      simp [HashMap.remove, Map.fd_or_err, h]
  · constructor
    · intro h
      rcases hfd : hm.inner.fd with _ | fd
      · rfl
      · simp [IterableMap.fd, Map.fd_or_err, hfd] at h
    · intro h
      simp [IterableMap.fd, Map.fd_or_err, h]

/-- C8 (amended, witness): the amended statement applied at the fixtures: on
the view with no handle all three operations and the iterator's fd
resolution fail with NotCreated; on the created view get does not fail with
NotCreated; and NotCreated is not one of the kind or size checks. -/
theorem ops_no_type_revalidation_witness :
    (HashMap.get testGateway hashMapNoFd 10 0 = Except.error MapError.NotCreated
     ∧ HashMap.insert testGateway hashMapNoFd 10 100 0 =
         Except.error MapError.NotCreated
     ∧ HashMap.remove testGateway hashMapNoFd 10 =
         Except.error MapError.NotCreated
     ∧ IterableMap.fd hashMapNoFd = Except.error MapError.NotCreated)
    ∧ ¬ HashMap.get testGateway testHashMap 10 0 =
          Except.error MapError.NotCreated
    ∧ MapError.NotCreated.isCheck = false := by
  refine ⟨⟨?_, ?_, ?_, ?_⟩, ?_, ?_⟩
  · exact (ops_no_type_revalidation Nat Nat testGateway hashMapNoFd 10 100
      0).2.2.2.1.mpr rfl
  · exact (ops_no_type_revalidation Nat Nat testGateway hashMapNoFd 10 100
      0).2.2.2.2.1.mpr rfl
  · exact (ops_no_type_revalidation Nat Nat testGateway hashMapNoFd 10 100
      0).2.2.2.2.2.1.mpr rfl
  · exact (ops_no_type_revalidation Nat Nat testGateway hashMapNoFd 10 100
      0).2.2.2.2.2.2.mpr rfl
  · intro h
    exact (by decide : ¬ testHashMap.inner.fd = none)
      ((ops_no_type_revalidation Nat Nat testGateway testHashMap 10 100
        0).2.2.2.1.mp h)
  · exact (ops_no_type_revalidation Nat Nat testGateway hashMapNoFd 10 100
      0).1 MapError.NotCreated
      ((ops_no_type_revalidation Nat Nat testGateway hashMapNoFd 10 100
        0).2.2.2.1.mpr rfl)

/-- C2: a get-next-key failure other than the end-of-map condition makes
both sequence flavours yield exactly one SyscallError naming the
get-next-key syscall and latch the cursor's error flag: the key cursor
yields that one error, the key-value iterator passes the same one error
through, and once the flag is latched every further advance of either
iterator yields nothing and leaves the state untouched, so the cursor is
never advanced again; on the test gateways whose third get-next-key call
faults, the key sequence is exactly 10, 20, then that one error and the
key-value sequence is exactly (10, 100), (20, 200), then that one error,
and no more. -/
theorem keys_error_terminates :
    (∀ (K V : Type) (g : Gateway K V) (hm : HashMap K V) (s : MapKeys K)
       (fd code e : Int),
       s.err = false → IterableMap.fd hm = Except.ok fd →
       g.next_key fd s.key = Except.error (code, e) → e ≠ ENOENT →
       MapKeys.next g hm s =
         (some (Except.error
             (MapError.SyscallError "bpf_map_get_next_key" code e)),
          { s with err := true }))
    ∧ (∀ (K V : Type) (g : Gateway K V) (hm : HashMap K V) (s : MapKeys K),
       s.err = true → MapKeys.next g hm s = (none, s))
    ∧ (∀ (K V : Type) (g : Gateway K V) (hm : HashMap K V) (s : MapKeys K)
       (fd code e : Int) (fuel : Nat),
       s.err = false → IterableMap.fd hm = Except.ok fd →
       g.next_key fd s.key = Except.error (code, e) → e ≠ ENOENT →
       MapIter.next g hm (Nat.succ fuel) s =
         (some (Except.error
             (MapError.SyscallError "bpf_map_get_next_key" code e)),
          { s with err := true }))
    ∧ (∀ (K V : Type) (g : Gateway K V) (hm : HashMap K V) (s : MapKeys K)
       (lf : Nat),
       s.err = true → MapIter.next g hm lf s = (none, s))
    ∧ runKeys keysErrGateway testHashMap 10 (MapKeys.new Nat) =
        [Except.ok 10, Except.ok 20,
         Except.error (MapError.SyscallError "bpf_map_get_next_key" (-1) EFAULT)]
    ∧ runIter iterKeyErrGateway testHashMap 10 10 (MapKeys.new Nat) =
        [Except.ok (10, 100), Except.ok (20, 200),
         Except.error (MapError.SyscallError "bpf_map_get_next_key" (-1) EFAULT)] := by
  refine ⟨?_, ?_, ?_, ?_, rfl, rfl⟩
  · intro K V g hm s fd code e herr hfd hnk hne
    simp [MapKeys.next, bpf_map_get_next_key, herr, hfd, hnk, hne]
  · intro K V g hm s herr
    simp [MapKeys.next, herr]
  · intro K V g hm s fd code e fuel herr hfd hnk hne
    simp [MapIter.next, MapKeys.next, bpf_map_get_next_key, herr, hfd, hnk, hne]
  · intro K V g hm s lf herr
    cases lf with
    | zero => rfl
    | succ n => simp [MapIter.next, MapKeys.next, herr]

/-- C2 (witness): on the faulting test gateways, advancing from cursor 20
yields the one SyscallError for the get-next-key syscall and latches the
error flag in both the key and the key-value iterator, and advancing either
iterator on a latched cursor yields nothing and keeps the state. -/
theorem keys_error_terminates_witness :
    (MapKeys.next keysErrGateway testHashMap { key := some 20, err := false } =
      (some (Except.error
          (MapError.SyscallError "bpf_map_get_next_key" (-1) EFAULT)),
       { key := some 20, err := true })
    ∧ MapKeys.next keysErrGateway testHashMap { key := some 20, err := true } =
      (none, { key := some 20, err := true }))
    ∧ MapIter.next iterKeyErrGateway testHashMap 6
        { key := some 20, err := false } =
      (some (Except.error
          (MapError.SyscallError "bpf_map_get_next_key" (-1) EFAULT)),
       { key := some 20, err := true })
    ∧ MapIter.next iterKeyErrGateway testHashMap 6
        { key := some 20, err := true } =
      (none, { key := some 20, err := true }) := by
  refine ⟨⟨?_, ?_⟩, ?_, ?_⟩
  · exact keys_error_terminates.1 Nat Nat keysErrGateway testHashMap
      { key := some 20, err := false } 42 (-1) EFAULT rfl rfl rfl (by decide)
  · exact keys_error_terminates.2.1 Nat Nat keysErrGateway testHashMap
      { key := some 20, err := true } rfl
  · exact keys_error_terminates.2.2.1 Nat Nat iterKeyErrGateway testHashMap
      { key := some 20, err := false } 42 (-1) EFAULT 5 rfl rfl rfl (by decide)
  · exact keys_error_terminates.2.2.2.1 Nat Nat iterKeyErrGateway testHashMap
      { key := some 20, err := true } 6 rfl

/-- C1: when the key cursor yields a key whose value lookup reports the
entry absent (deleted between the cursor step and the lookup), the key-value
iterator yields neither the pair nor an error for it and goes straight on to
the next cursor advance from the advanced state; on the test gateway with
keys 10, 20, 30 where the lookup of 20 reports ENOENT, the paired sequence
is exactly (10, 100) then (30, 300) and then ends. -/
theorem iter_skips_deleted :
    (∀ (K V : Type) (g : Gateway K V) (hm : HashMap K V) (s s1 : MapKeys K)
       (k : K) (fuel : Nat),
       MapKeys.next g hm s = (some (Except.ok k), s1) →
       IterableMap.get g hm k = Except.ok none →
       MapIter.next g hm (Nat.succ fuel) s = MapIter.next g hm fuel s1)
    ∧ runIter delGateway testHashMap 10 10 (MapKeys.new Nat) =
        [Except.ok (10, 100), Except.ok (30, 300)] := by
  refine ⟨?_, rfl⟩
  intro K V g hm s s1 k fuel hks hget
  simp [MapIter.next, hks, hget]

/-- C1 (witness): the skip step applied on the deleted-key gateway: from
cursor 10 the cursor step yields key 20, its lookup reports absent, and the
paired iterator's step from cursor 10 equals the step from cursor 20 with
one unit of fuel less. -/
theorem iter_skips_deleted_witness :
    MapIter.next delGateway testHashMap 6 { key := some 10, err := false } =
      MapIter.next delGateway testHashMap 5 { key := some 20, err := false } := by
  exact iter_skips_deleted.1 Nat Nat delGateway testHashMap
    { key := some 10, err := false } { key := some 20, err := false } 20 5
    rfl rfl

/-- C3: when the key cursor yields a key whose value lookup fails for a
reason other than absence, the key-value iterator yields that failure as one
element and keeps the advanced cursor state, so subsequent advances continue
with the remaining keys; on the test gateway with keys 10, 20, 30 where the
lookup of 20 faults with EFAULT, the paired sequence is exactly (10, 100),
the SyscallError for the lookup syscall, then (30, 300), and then ends. -/
theorem iter_lookup_error_continues :
    (∀ (K V : Type) (g : Gateway K V) (hm : HashMap K V) (s s1 : MapKeys K)
       (k : K) (e : MapError) (fuel : Nat),
       MapKeys.next g hm s = (some (Except.ok k), s1) →
       IterableMap.get g hm k = Except.error e →
       MapIter.next g hm (Nat.succ fuel) s = (some (Except.error e), s1))
    ∧ runIter valErrGateway testHashMap 10 10 (MapKeys.new Nat) =
        [Except.ok (10, 100),
         Except.error (MapError.SyscallError "bpf_map_lookup_elem" (-1) EFAULT),
         Except.ok (30, 300)] := by
  refine ⟨?_, rfl⟩
  intro K V g hm s s1 k e fuel hks hget
  simp [MapIter.next, hks, hget]

/-- C3 (witness): the error step applied on the faulting-lookup gateway:
from cursor 10 the cursor step yields key 20, its lookup faults, and the
paired iterator yields that SyscallError while keeping the advanced cursor,
from which the next advance yields (30, 300). -/
theorem iter_lookup_error_continues_witness :
    MapIter.next valErrGateway testHashMap 6 { key := some 10, err := false } =
      (some (Except.error
          (MapError.SyscallError "bpf_map_lookup_elem" (-1) EFAULT)),
       { key := some 20, err := false })
    ∧ MapIter.next valErrGateway testHashMap 6 { key := some 20, err := false } =
      (some (Except.ok (30, 300)), { key := some 30, err := false }) := by
  constructor
  · exact iter_lookup_error_continues.1 Nat Nat valErrGateway testHashMap
      { key := some 10, err := false } { key := some 20, err := false } 20
      (MapError.SyscallError "bpf_map_lookup_elem" (-1) EFAULT) 5 rfl rfl
  · rfl

/-- A gateway that behaves like the test gateway at flags 0 but faults on
every lookup invoked with nonzero flags. -/
def oddFlagsGateway : Gateway Nat Nat :=
  { testGateway with
    lookup := fun _ k flags =>
      if flags = 0 then lookup_elem_test k else Except.error (-1, EFAULT) }

/-- Helper: a key-cursor advance consults the gateway only through its
get-next-key operation. -/
theorem mapKeysNext_gateway_congr (K V : Type) (g g' : Gateway K V)
    (hm : HashMap K V) (hnk : g.next_key = g'.next_key) (s : MapKeys K) :
    MapKeys.next g hm s = MapKeys.next g' hm s := by
  simp [MapKeys.next, bpf_map_get_next_key, hnk]

/-- Helper: the iterator's per-key lookup depends only on the gateway's
lookup behaviour at flags 0. -/
theorem iterableGet_gateway_congr (K V : Type) (g g' : Gateway K V)
    (hm : HashMap K V) (hl : ∀ fd k, g.lookup fd k 0 = g'.lookup fd k 0)
    (k : K) : IterableMap.get g hm k = IterableMap.get g' hm k := by
  rcases hfd : hm.inner.fd with _ | fd
  · simp [IterableMap.get, HashMap.get, Map.fd_or_err, hfd]
  · simp [IterableMap.get, HashMap.get, Map.fd_or_err, hfd,
      bpf_map_lookup_elem, hl fd k]

/-- Helper: one paired-iterator advance depends only on the gateway's
get-next-key behaviour and its lookup behaviour at flags 0. -/
theorem mapIterNext_gateway_congr (K V : Type) (g g' : Gateway K V)
    (hm : HashMap K V) (hl : ∀ fd k, g.lookup fd k 0 = g'.lookup fd k 0)
    (hnk : g.next_key = g'.next_key) :
    ∀ (lf : Nat) (s : MapKeys K),
      MapIter.next g hm lf s = MapIter.next g' hm lf s := by
  intro lf
  induction lf with
  | zero => intro s; rfl
  | succ n ih =>
    intro s
    simp only [MapIter.next]
    rw [mapKeysNext_gateway_congr K V g g' hm hnk s]
    rcases hks : MapKeys.next g' hm s with ⟨x, s1⟩
    rcases x with _ | x
    · rfl
    · rcases x with e | k
      · rfl
      · dsimp only
        rw [iterableGet_gateway_congr K V g g' hm hl k]
        rcases hget : IterableMap.get g' hm k with e | v
        · rfl
        · rcases v with _ | v
          · exact ih s1
          · rfl

/-- Helper: the collected paired sequence depends only on the gateway's
get-next-key behaviour and its lookup behaviour at flags 0. -/
theorem runIter_gateway_congr (K V : Type) (g g' : Gateway K V)
    (hm : HashMap K V) (hl : ∀ fd k, g.lookup fd k 0 = g'.lookup fd k 0)
    (hnk : g.next_key = g'.next_key) :
    ∀ (fuel lf : Nat) (s : MapKeys K),
      runIter g hm fuel lf s = runIter g' hm fuel lf s := by
  intro fuel
  induction fuel with
  | zero => intro lf s; rfl
  | succ n ih =>
    intro lf s
    simp only [runIter]
    rw [mapIterNext_gateway_congr K V g g' hm hl hnk lf s]
    rcases hit : MapIter.next g' hm lf s with ⟨x, s1⟩
    rcases x with _ | x
    · rfl
    · exact congrArg (List.cons x) (ih lf s1)

/-- C10: the per-key lookup inside the paired iteration is issued with flags
0 and with nothing else: IterableMap::get forwards to get with flags 0,
and the whole key-value sequence is unchanged when the gateway's lookup
behaviour is altered at every nonzero flags value, so no caller-supplied
flags can reach the lookups performed inside iteration. -/
theorem iter_flags_always_zero :
    (∀ (K V : Type) (g : Gateway K V) (hm : HashMap K V) (k : K),
       IterableMap.get g hm k = HashMap.get g hm k 0)
    ∧ (∀ (K V : Type) (g g' : Gateway K V) (hm : HashMap K V),
       (∀ fd k, g.lookup fd k 0 = g'.lookup fd k 0) →
       g.next_key = g'.next_key →
       ∀ (fuel lf : Nat) (s : MapKeys K),
         runIter g hm fuel lf s = runIter g' hm fuel lf s) := by
  constructor
  · intro K V g hm k
    rfl
  · intro K V g g' hm hl hnk fuel lf s
    exact runIter_gateway_congr K V g g' hm hl hnk fuel lf s

/-- C10 (witness): the test gateway and the gateway that faults on every
nonzero-flags lookup agree at flags 0, so the collected paired sequences
coincide. -/
theorem iter_flags_always_zero_witness :
    runIter testGateway testHashMap 10 10 (MapKeys.new Nat) =
      runIter oddFlagsGateway testHashMap 10 10 (MapKeys.new Nat) := by
  exact iter_flags_always_zero.2 Nat Nat testGateway oddFlagsGateway
    testHashMap (fun fd k => rfl) rfl 10 10 (MapKeys.new Nat)

/-- nextAfter ks p: the key right after the first occurrence of p in the
kernel's traversal order ks, the end-of-map signal (ENOENT) when p is last,
and a fault (EFAULT) when p is unknown, mirroring the successor scan of the
test harness's get_next_key. -/
def nextAfter : List Nat → Nat → Except (Int × Int) Nat
  | [], _ => Except.error (-1, EFAULT)
  | k :: rest, p =>
    if k = p then
      match rest with
      | [] => Except.error (-1, ENOENT)
      | k2 :: _ => Except.ok k2
    else nextAfter rest p

/-- listNextKey ks: the get-next-key behaviour of a kernel whose traversal
returns exactly the keys of ks in order, then signals end-of-map. -/
def listNextKey (ks : List Nat) : Option Nat → Except (Int × Int) Nat
  | none =>
    match ks with
    | [] => Except.error (-1, ENOENT)
    | k :: _ => Except.ok k
  | some p => nextAfter ks p

/-- listGateway ks: a gateway whose successive get-next-key steps produce
exactly the keys of ks in order, followed by the end-of-map signal. -/
def listGateway (ks : List Nat) : Gateway Nat Nat :=
  { testGateway with next_key := fun _ p => listNextKey ks p }

/-- Helper: scanning for the successor of p skips any prefix not containing
p and behaves on the remainder like a first step on it. -/
theorem nextAfter_append (pre rest : List Nat) (p : Nat) (hp : p ∉ pre) :
    nextAfter (pre ++ p :: rest) p = listNextKey rest none := by
  induction pre with
  | nil =>
    rcases rest with _ | ⟨r, rest⟩ <;> simp [nextAfter, listNextKey]
  | cons a pre ih =>
    have ha : ¬(a = p) := fun h => hp (by simp [h])
    simp only [List.cons_append, nextAfter, ha, if_false]
    exact ih (fun h => hp (List.mem_cons_of_mem a h))

/-- Helper: from a cursor sitting on key p of a duplicate-free kernel key
list, the collected key sequence is exactly the keys after p, for any fuel
at least one beyond their number. -/
theorem runKeys_listGateway_tail (hm : HashMap Nat Nat) (fd : Int)
    (hfd : hm.inner.fd = some fd) :
    ∀ (rest pre : List Nat) (p : Nat) (extra : Nat),
      (pre ++ p :: rest).Nodup →
      runKeys (listGateway (pre ++ p :: rest)) hm
        (Nat.succ (rest.length + extra)) { key := some p, err := false } =
        rest.map Except.ok := by
  intro rest
  induction rest with
  | nil =>
    intro pre p extra hnd
    have hp : p ∉ pre := by
      rw [List.nodup_append] at hnd
      intro hmem
      exact hnd.2.2 hmem (List.mem_cons_self p _)
    simp [runKeys, MapKeys.next, IterableMap.fd, Map.fd_or_err, hfd,
      bpf_map_get_next_key, listGateway, listNextKey,
      nextAfter_append pre [] p hp]
  | cons r rest ih =>
    intro pre p extra hnd
    have hp : p ∉ pre := by
      rw [List.nodup_append] at hnd
      intro hmem
      exact hnd.2.2 hmem (List.mem_cons_self p _)
    have hpp : (pre ++ [p]) ++ r :: rest = pre ++ p :: r :: rest := by
      simp
    have hnd' : ((pre ++ [p]) ++ r :: rest).Nodup := by
      rw [hpp]; exact hnd
    have hih := ih (pre ++ [p]) r extra hnd'
    rw [hpp] at hih
    have hstep : MapKeys.next (listGateway (pre ++ p :: r :: rest)) hm
        { key := some p, err := false } =
        (some (Except.ok r), { key := some r, err := false }) := by
      simp [MapKeys.next, IterableMap.fd, Map.fd_or_err, hfd,
        bpf_map_get_next_key, listGateway, listNextKey,
        nextAfter_append pre (r :: rest) p hp]
    have harith : (r :: rest).length + extra = Nat.succ (rest.length + extra) := by
      simp [List.length_cons]
      omega
    simp only [runKeys, hstep, List.map_cons, harith, hih]

/-- C4: the key sequence reproduces the kernel's traversal exactly: for
every duplicate-free finite key list served by successive get-next-key calls
followed by the end-of-map signal, the collected key sequence is those keys
in that order, mapped to Ok, with no error, no reordering, no
deduplication and no repetition; on the test gateway with keys 10, 20, 30
the sequence is exactly those three keys, and on the immediately-empty
gateway it is empty and not an error. -/
theorem keys_yields_gateway_order :
    (∀ (ks : List Nat) (hm : HashMap Nat Nat) (fd : Int) (extra : Nat),
       hm.inner.fd = some fd → ks.Nodup →
       runKeys (listGateway ks) hm (Nat.succ (ks.length + extra))
         (MapKeys.new Nat) = ks.map Except.ok)
    ∧ runKeys testGateway testHashMap 10 (MapKeys.new Nat) =
        [Except.ok 10, Except.ok 20, Except.ok 30]
    ∧ runKeys emptyGateway testHashMap 10 (MapKeys.new Nat) = [] := by
  refine ⟨?_, rfl, rfl⟩
  intro ks hm fd extra hfd hnd
  rcases ks with _ | ⟨k, ks⟩
  · simp [runKeys, MapKeys.next, MapKeys.new, IterableMap.fd, Map.fd_or_err,
      hfd, bpf_map_get_next_key, listGateway, listNextKey]
  · have hstep : MapKeys.next (listGateway (k :: ks)) hm (MapKeys.new Nat) =
        (some (Except.ok k), { key := some k, err := false }) := by
      simp [MapKeys.next, MapKeys.new, IterableMap.fd, Map.fd_or_err, hfd,
        bpf_map_get_next_key, listGateway, listNextKey]
    have harith : (k :: ks).length + extra = Nat.succ (ks.length + extra) := by
      simp [List.length_cons]
      omega
    have htail := runKeys_listGateway_tail hm fd hfd ks [] k extra
      (by simpa using hnd)
    simp only [List.nil_append] at htail
    simp only [runKeys, hstep, List.map_cons, harith, htail]

/-- C4 (witness): the order theorem applied at the kernel key list
10, 20, 30 on the created test view. -/
theorem keys_yields_gateway_order_witness :
    runKeys (listGateway [10, 20, 30]) testHashMap 4 (MapKeys.new Nat) =
      [Except.ok 10, Except.ok 20, Except.ok 30] := by
  have h := keys_yields_gateway_order.1 [10, 20, 30] testHashMap 42 0 rfl
    (by decide)
  simpa using h

end Aya
